import Mathlib

/-!
Verification of the tspgen repository (clustered TSP instance generator and
decision-diagram solver) against its natural-language specification.

The embedding mirrors the Rust source:
  * `smallbitset::Set64` (a 64-bit bitset) is modelled as `Finset (Fin 64)`;
    `Set64::full()` is `Finset.univ`, `remove` is `Finset.erase`,
    `union`/`inter`/`diff` are the corresponding `Finset` operations.
  * `f32` quantities (distances, the reported objective) are modelled over `ℚ`;
    Rust's `f32::round` (round half away from zero) is `rustRound`.
  * machine integers (`usize`, `isize`) are `Nat` / `ℤ`; Rust `usize`
    division by zero panics, which is made explicit where it matters.
-/

namespace Tspgen

/-- State of the TSP decision-diagram model (`TspState` in
`src/resolution/model.rs`): the three `Set64` bitsets become
`Finset (Fin 64)`. -/
structure TspState where
  depth : Nat
  current : Finset (Fin 64)
  must_visit : Finset (Fin 64)
  might_visit : Finset (Fin 64)
deriving DecidableEq

/-- Abbreviation for the bitset carrier. -/
abbrev Set64 := Finset (Fin 64)

/-- `TspModel::initial_state`: depth 0, current = {0}, `must_visit` holds all
city indices below `n` (the loop inserts `i as u8` for `i in 0..n`; the
bitset caps capacity at 64), `might_visit` empty. -/
def initial_state (n : Nat) : TspState :=
  ⟨0, {0}, Finset.univ.filter (fun i : Fin 64 => (i : Nat) < n), ∅⟩

/-- `TspModel::transition`: depth + 1, current becomes the singleton of the
decided city, which is removed from both `must_visit` and `might_visit`. -/
def transition (s : TspState) (v : Fin 64) : TspState :=
  ⟨s.depth + 1, {v}, s.must_visit.erase v, s.might_visit.erase v⟩

/-- Rust `f32::round`: round half away from zero, modelled on `ℚ`. -/
def rustRound (q : ℚ) : ℤ :=
  if 0 ≤ q then ⌊q + 1 / 2⌋ else ⌈q - 1 / 2⌉

/-- `TspModel::transition_cost`: map each possible predecessor
`from ∈ state.current` to `round(distances[from][to] * 100_000)`, take the
minimum, negate it (the engine maximizes), and default to 0 when `current`
is empty (`unwrap_or(0)`). -/
def transition_cost (dist : Fin 64 → Fin 64 → ℚ) (s : TspState) (v : Fin 64) : ℤ :=
  if h : (s.current.image (fun f => rustRound (dist f v * 100000))).Nonempty then
    -((s.current.image (fun f => rustRound (dist f v * 100000))).min' h)
  else 0

/-- `TspModel::for_each_in_domain` as the list of decision values it applies:
`dest = must_visit ∪ might_visit`; when `|dest| = 1` the sole decision is
value 0, otherwise one decision per member of `dest` except 0 (`Set64`
iterates in increasing index order, hence the filtered ascending range). -/
def for_each_in_domain (s : TspState) : List (Fin 64) :=
  if (s.must_visit ∪ s.might_visit).card = 1 then [0]
  else ((List.finRange 64).filter
    (fun v => v ∈ s.must_visit ∪ s.might_visit)).filter (fun v => v ≠ 0)

/-- `TspRelax::merge`: fold over the states starting from
depth 0 / empty / `Set64::full()` / empty, exactly as the Rust loop does;
the result's `might_visit` is `might.diff(must)`. -/
def merge (l : List TspState) : TspState :=
  let depth := l.foldl (fun a s => max a s.depth) 0
  let curr := l.foldl (fun a s => a ∪ s.current) ∅
  let must := l.foldl (fun a s => a ∩ s.must_visit) Finset.univ
  let might := l.foldl (fun a s => a ∪ s.might_visit) ∅
  ⟨depth, curr, must, might \ must⟩

/-- States reachable from the initial state by any sequence of transitions
and merges (merge applies to a non-empty collection of reachable states). -/
inductive Reachable (n : Nat) : TspState → Prop where
  | init : Reachable n (initial_state n)
  | step (s : TspState) (v : Fin 64) :
      Reachable n s → Reachable n (transition s v)
  | merged (l : List TspState) :
      l ≠ [] → (∀ s ∈ l, Reachable n s) → Reachable n (merge l)

/-- States reachable using transitions only (exact, non-merged states). -/
inductive ReachableT (n : Nat) : TspState → Prop where
  | init : ReachableT n (initial_state n)
  | step (s : TspState) (v : Fin 64) :
      ReachableT n s → ReachableT n (transition s v)

/-- `GenerateInstance::generate_cities`, reduced to the per-centroid city
counts (the sampled positions are irrelevant to the counting claims):
`cities_per_centroids = nb_cities / nb_centroids` (usize division), the
first centroid gets one extra city when the division is not exact, every
other centroid gets `cities_per_centroids`. -/
def generate_cities_counts (nb_cities nb_centroids : Nat) : List Nat :=
  let cities_per_centroids := nb_cities / nb_centroids
  let cities_in_first_centroid :=
    if cities_per_centroids * nb_centroids = nb_cities then cities_per_centroids
    else cities_per_centroids + 1
  (List.range nb_centroids).map
    (fun i => if i = 0 then cities_in_first_centroid else cities_per_centroids)

/-- Observable steps of `GenerateInstance::generate` relevant to parameter
handling. -/
inductive GenStep where
  | sampledCentroids (k : Nat)
  | panicDivisionByZero
  | producedCities (counts : List Nat)
deriving DecidableEq

/-- Control flow of `GenerateInstance::generate` for the counting model:
there is no parameter validation; `generate_centroids` first samples
`nb_centroids` centroids, then `generate_cities` computes
`nb_cities / nb_centroids`, a `usize` division that panics when
`nb_centroids = 0`. -/
def generate_trace (nb_cities nb_centroids : Nat) : List GenStep :=
  GenStep.sampledCentroids nb_centroids ::
    (if nb_centroids = 0 then [GenStep.panicDivisionByZero]
     else [GenStep.producedCities (generate_cities_counts nb_cities nb_centroids)])

/-- `Solve::execute` reporting: `best_value.map(|v| v as f32 / -100_000_000.0)`,
modelled exactly over `ℚ`. -/
def reported_best_value (v : ℤ) : ℚ := (v : ℚ) / (-100000000)

/-- Concrete distance function used to instantiate theorems. -/
def demo_dist (i j : Fin 64) : ℚ := (i : ℚ) + (j : ℚ)

/-- Concrete state with a two-element `current` set. -/
def demo_state : TspState := ⟨1, {2, 5}, {3}, ∅⟩

/-- Concrete state with an empty `current` set. -/
def demo_empty_state : TspState := ⟨0, ∅, {1}, ∅⟩

/-- C1: with nb_cities = 11 and nb_centroids = 3, `generate_cities` gives the
per-centroid counts [4, 3, 3] — only the first centroid receives an extra
city — so only 10 cities are produced, contradicting the claim that the first
`n mod k = 2` centroids each receive `⌈n/k⌉ = 4` cities and that the total
equals `n = 11`. -/
theorem C1_distribution_eval :
    generate_cities_counts 11 3 = [4, 3, 3] ∧
    (generate_cities_counts 11 3).sum ≠ 11 := by
  decide

/-- C2 counterexample: for best_value v = -100000000 the value reported by the
solve command is 1, not v / -100000 = 1000: the code divides by -100000000. -/
theorem C2_reported_value_cex :
    reported_best_value (-100000000) ≠ ((-100000000 : ℤ) : ℚ) / (-100000) := by
  norm_num [reported_best_value]

/-- C2 amended: the metric value printed by the solve command equals
v / -100000 further divided by 1000, i.e. v / -100000000: kilometres (not
metres) when the matrix holds distances in metres. -/
theorem C2_reported_value_amended (v : ℤ) :
    reported_best_value v = ((v : ℚ) / (-100000)) / 1000 := by
  rw [reported_best_value, div_div]
  norm_num

/-- C3: merging the states ⟨1, {3}, {1}, ∅⟩ and ⟨1, {4}, {2}, ∅⟩ yields
`might_visit = ∅`, whereas the claimed formula
(union of might_visit sets ∪ union of must_visit sets) \ new must_visit
equals {1, 2}: the code drops cities that are mandatory in some but not all
merged states instead of demoting them to `might_visit`. -/
theorem C3_merge_eval :
    (merge [⟨1, {3}, {1}, ∅⟩, ⟨1, {4}, {2}, ∅⟩]).might_visit = ∅ ∧
    ((∅ ∪ ∅) ∪ ({1} ∪ {2} : Set64)) \
      (merge [⟨1, {3}, {1}, ∅⟩, ⟨1, {4}, {2}, ∅⟩]).must_visit = {1, 2} := by
  decide

/-- C4: decision value 1 is in the domain of the state ⟨1, {2}, {1, 4}, ∅⟩,
yet it is not in the domain of the merge of that state with ⟨1, {3}, {2, 4}, ∅⟩
(the merged domain collapses to [0]): a transition valid from a member of S is
lost by merge(S), refuting merge soundness on the code. -/
theorem C4_merge_domain_eval :
    (1 : Fin 64) ∈ for_each_in_domain ⟨1, {2}, {1, 4}, ∅⟩ ∧
    (1 : Fin 64) ∉
      for_each_in_domain (merge [⟨1, {2}, {1, 4}, ∅⟩, ⟨1, {3}, {2, 4}, ∅⟩]) := by
  decide

/-- C5: with nb_cities = 65 (beyond the 64-city bitset capacity) and
nb_centroids = 1, generation performs no parameter check: it samples the
centroid and produces 65 cities instead of failing at the start. -/
theorem C5_no_validation_eval :
    generate_trace 65 1 =
      [GenStep.sampledCentroids 1, GenStep.producedCities [65]] := by
  decide

/-- C7: for every state s and decision value v (in particular one drawn from
must_visit ∪ might_visit), the transitioned state has depth s.depth + 1,
current = {v}, and v belongs to neither its must_visit nor its might_visit. -/
theorem C7_transition_closure (s : TspState) (v : Fin 64)
    (h : v ∈ s.must_visit ∪ s.might_visit) :
    (transition s v).depth = s.depth + 1 ∧ (transition s v).current = {v} ∧
    v ∉ (transition s v).must_visit ∧ v ∉ (transition s v).might_visit :=
  ⟨rfl, rfl, Finset.not_mem_erase v s.must_visit, Finset.not_mem_erase v s.might_visit⟩

/-- C7 witness: the transition at the concrete state demo_state with v = 3. -/
theorem C7_transition_closure_witness :
    (transition demo_state 3).depth = demo_state.depth + 1 ∧
    (transition demo_state 3).current = {3} ∧
    (3 : Fin 64) ∉ (transition demo_state 3).must_visit ∧
    (3 : Fin 64) ∉ (transition demo_state 3).might_visit :=
  C7_transition_closure demo_state 3 (by decide)

/-- C6: for a state with non-empty current, transition_cost is the negation of
the minimum over from ∈ current of round(distances[from][v] * 100000): some
from ∈ current realizes the cost and its rounded scaled distance is a lower
bound of every other one. -/
theorem C6_transition_cost_min (dist : Fin 64 → Fin 64 → ℚ) (s : TspState)
    (v : Fin 64) (h : s.current.Nonempty) :
    ∃ f ∈ s.current,
      transition_cost dist s v = -(rustRound (dist f v * 100000)) ∧
      ∀ g ∈ s.current,
        rustRound (dist f v * 100000) ≤ rustRound (dist g v * 100000) := by
  have h' : (s.current.image (fun f => rustRound (dist f v * 100000))).Nonempty :=
    h.image _
  obtain ⟨f, hf, hfe⟩ := Finset.mem_image.mp (Finset.min'_mem _ h')
  refine ⟨f, hf, ?_, ?_⟩
  · unfold transition_cost
    rw [dif_pos h', hfe]
  · intro g hg
    rw [hfe]
    exact Finset.min'_le _ _ (Finset.mem_image_of_mem _ hg)

/-- C6 witness: the characterization instantiated at demo_dist, demo_state
(current = {2, 5}) and destination 3. -/
theorem C6_transition_cost_min_witness :
    ∃ f ∈ demo_state.current,
      transition_cost demo_dist demo_state 3 = -(rustRound (demo_dist f 3 * 100000)) ∧
      ∀ g ∈ demo_state.current,
        rustRound (demo_dist f 3 * 100000) ≤ rustRound (demo_dist g 3 * 100000) :=
  C6_transition_cost_min demo_dist demo_state 3 ⟨2, by decide⟩

/-- C8: every state reachable by transitions and merges has disjoint
must_visit and might_visit, and every state reachable by transitions only has
a singleton current set. -/
theorem C8_reachable_invariants (n : Nat) (s : TspState) :
    (Reachable n s → Disjoint s.must_visit s.might_visit) ∧
    (ReachableT n s → ∃ v, s.current = {v}) := by
  constructor
  · intro h
    induction h with
    | init => simp [initial_state]
    | step s v _ ih =>
        exact ih.mono (Finset.erase_subset _ _) (Finset.erase_subset _ _)
    | merged l hne hall ih =>
        exact disjoint_sdiff_self_right
  · intro h
    induction h with
    | init => exact ⟨0, rfl⟩
    | step s v _ ih => exact ⟨v, rfl⟩

/-- C8 witness: the invariants at the state reached from initial_state 3 by
the single transition deciding city 1. -/
theorem C8_reachable_invariants_witness :
    Disjoint (transition (initial_state 3) 1).must_visit
      (transition (initial_state 3) 1).might_visit ∧
    (∃ v, (transition (initial_state 3) 1).current = {v}) :=
  ⟨(C8_reachable_invariants 3 (transition (initial_state 3) 1)).1
      (Reachable.step _ 1 Reachable.init),
   (C8_reachable_invariants 3 (transition (initial_state 3) 1)).2
      (ReachableT.step _ 1 ReachableT.init)⟩

/-- C9: for_each_in_domain applies pairwise distinct decision values, and a
value v is applied iff either dest = must_visit ∪ might_visit has exactly one
element and v = 0, or dest has more than one element, v ∈ dest and v ≠ 0. -/
theorem C9_domain_characterization (s : TspState) (v : Fin 64) :
    (for_each_in_domain s).Nodup ∧
    (v ∈ for_each_in_domain s ↔
      if (s.must_visit ∪ s.might_visit).card = 1 then v = 0
      else v ∈ s.must_visit ∪ s.might_visit ∧ v ≠ 0) := by
  unfold for_each_in_domain
  by_cases h : (s.must_visit ∪ s.might_visit).card = 1
  · simp [h]
  · rw [if_neg h, if_neg h]
    refine ⟨((List.nodup_finRange 64).filter _).filter _, ?_⟩
    simp [List.mem_filter, and_comm]

/-- C10: when current is empty, transition_cost is total and returns 0 (the
`unwrap_or(0)` branch). -/
theorem C10_empty_current_cost (dist : Fin 64 → Fin 64 → ℚ) (s : TspState)
    (v : Fin 64) (h : s.current = ∅) : transition_cost dist s v = 0 := by
  have hne : ¬ (s.current.image (fun f => rustRound (dist f v * 100000))).Nonempty := by
    rw [h]
    simp
  simp only [transition_cost, dif_neg hne]

/-- C10 witness: the cost at the concrete empty-current state is 0. -/
theorem C10_empty_current_cost_witness :
    transition_cost demo_dist demo_empty_state 1 = 0 :=
  C10_empty_current_cost demo_dist demo_empty_state 1 rfl

end Tspgen
